import Mathlib

/-!
Shallow embedding of `src/app/main.py` (FastAPI "NFT IPFS Backend").

The service persists one JSON record per created NFT in a metadata directory
(`{id}.json` holding the metadata document and `{id}_data.json` holding the
full record), uploads content and metadata through an external IPFS client,
and exposes lookup, listing, health and QR-code endpoints.

Modelling choices, all taken from the source:
* File contents are modelled post-parse: a file either holds a JSON document
  (`FileData.json`) or bytes that `json.load` rejects (`FileData.raw`).
  JSON objects model Python dicts after duplicate-key resolution (keys
  distinct, insertion order kept); numbers are modelled as integers, since
  no endpoint behaviour in scope depends on floats.
* The external IPFS client is an oracle (`Env`): whether `connect` succeeds
  and which content identifiers the two `add` calls return.  `uuid4` is the
  oracle's `nftId`.
* Each handler returns, besides its result, the ordered list of filesystem
  operations it performed (`FsOp`); `applyTrace` is their store semantics.
  This makes frame properties and "no disk write" claims statable.
* HTTP statuses are `Nat`s.  `upload_to_ipfs` in the source wraps its whole
  body in `try/except Exception` with NO `except HTTPException: raise`
  clause, so the `HTTPException(400)` / `HTTPException(503)` raised inside
  the `try` are caught there as ordinary exceptions and re-raised as 500:
  the embedding returns 500 on those paths, as the code does.
* `NFTResponse` in the source annotates `content_cid : str` (not
  `Optional[str]`); pydantic (v1 and v2 alike) rejects `None` for a
  required `str` field, so `NFTResponse(**nft_data)` raises when
  `content_cid` is `None`.  `NFTResponse.fromJson` returns `none` there.
-/

/-- A JSON value as produced by Python `json.loads`. -/
inductive Json : Type where
  | null : Json
  | bool : Bool → Json
  | num : Int → Json
  | str : String → Json
  | arr : List Json → Json
  | obj : List (String × Json) → Json

/-- First-occurrence lookup in an association list; models access to a
Python dict represented with distinct keys in insertion order. -/
def alookup {α : Type} : List (String × α) → String → Option α
  | [], _ => none
  | (k, v) :: rest, key => if k = key then some v else alookup rest key

/-- Python truthiness of a decoded JSON value (`if not x:` in the source). -/
def Json.truthy : Json → Bool
  | .null => false
  | .bool b => b
  | .num n => n ≠ 0
  | .str s => s ≠ ""
  | .arr xs => ¬ xs.isEmpty
  | .obj kvs => ¬ kvs.isEmpty

mutual
/-- Python `repr` of a decoded JSON value, used by f-string interpolation of
non-string values.  Quote-escaping minutiae inside strings are not modelled;
no claim depends on the rendering of composite values. -/
def pyrepr : Json → String
  | .null => "None"
  | .bool b => if b then "True" else "False"
  | .num n => toString n
  | .str s => "\x27" ++ s ++ "\x27"
  | .arr xs => "[" ++ pyreprItems xs ++ "]"
  | .obj kvs => "\x7b" ++ pyreprPairs kvs ++ "\x7d"

/-- Comma-separated Python reprs of the items of a JSON array. -/
def pyreprItems : List Json → String
  | [] => ""
  | [x] => pyrepr x
  | x :: y :: xs => pyrepr x ++ ", " ++ pyreprItems (y :: xs)

/-- Comma-separated Python reprs of the entries of a JSON object. -/
def pyreprPairs : List (String × Json) → String
  | [] => ""
  | [(k, v)] => "\x27" ++ k ++ "\x27: " ++ pyrepr v
  | (k, v) :: p :: xs => "\x27" ++ k ++ "\x27: " ++ pyrepr v ++ ", " ++ pyreprPairs (p :: xs)
end

/-- Python `str()` of a decoded JSON value (f-string interpolation). -/
def pystr : Json → String
  | .str s => s
  | j => pyrepr j

/-- Content of a file on disk, modelled post-parse: either a JSON document,
or raw bytes on which `json.load` fails (uploaded blobs, malformed files). -/
inductive FileData : Type where
  | json : Json → FileData
  | raw : String → FileData

/-- A directory as a finite map from file name to content, in filesystem
enumeration order (the order `glob` yields). -/
abbrev Store := List (String × FileData)

/-- The two directories the service touches: `./data/metadata` (the record
store) and `./data/uploads` (transient per-request uploads). -/
structure Fs where
  metadata : Store
  uploads : Store

/-- Directory tag for a filesystem operation. -/
inductive Dir : Type where
  | metadataDir : Dir
  | uploadsDir : Dir

/-- One effect performed by a handler: a file write, removal or read, or an
`ipfs_client.add` call on a file. -/
inductive FsOp : Type where
  | write : Dir → String → FileData → FsOp
  | remove : Dir → String → FsOp
  | read : Dir → String → FsOp
  | ipfsAdd : Dir → String → FsOp

/-- Whether an operation creates, modifies or deletes a file. -/
def FsOp.isMutating : FsOp → Bool
  | .write _ _ _ => true
  | .remove _ _ => true
  | .read _ _ => false
  | .ipfsAdd _ _ => false

/-- Write a file: overwrite in place if the name exists, else append. -/
def setFile : Store → String → FileData → Store
  | [], name, d => [(name, d)]
  | e :: es, name, d => if e.1 = name then (name, d) :: es else e :: setFile es name d

/-- Remove a file by name (`os.remove`). -/
def delFile (s : Store) (name : String) : Store := s.filter (fun e => e.1 ≠ name)

/-- Store semantics of one filesystem operation. -/
def applyOp (fs : Fs) : FsOp → Fs
  | .write .metadataDir n d => { fs with metadata := setFile fs.metadata n d }
  | .write .uploadsDir n d => { fs with uploads := setFile fs.uploads n d }
  | .remove .metadataDir n => { fs with metadata := delFile fs.metadata n }
  | .remove .uploadsDir n => { fs with uploads := delFile fs.uploads n }
  | .read _ _ => fs
  | .ipfsAdd _ _ => fs

/-- Store semantics of a trace of filesystem operations, in order. -/
def applyTrace (fs : Fs) (t : List FsOp) : Fs := t.foldl applyOp fs

/-- The pydantic response model of the source: `nft_id : str`,
`content_cid : str` (required, NOT `Optional`), `metadata_cid : str`,
`metadata : Dict`. -/
structure NFTResponse where
  nft_id : String
  content_cid : String
  metadata_cid : String
  metadata : List (String × Json)

/-- Validation performed by `NFTResponse(**nft_data)`: each `str` field must
be a string (pydantic rejects `None` for a required `str` field — this is
what makes `content_cid = None` raise), `metadata` must be a dict, and the
input must be a dict.  Extra keys are ignored; numeric-to-string coercion
corner cases of old pydantic are outside every state this development
reasons about. -/
def NFTResponse.fromJson : Json → Option NFTResponse
  | .obj kvs =>
    match alookup kvs "nft_id", alookup kvs "content_cid",
          alookup kvs "metadata_cid", alookup kvs "metadata" with
    | some (.str i), some (.str c), some (.str m), some (.obj md) =>
      some ⟨i, c, m, md⟩
    | _, _, _, _ => none
  | _ => none

/-- The listing response model: `nfts : List[NFTResponse]`, `total_count : int`. -/
structure NFTListResponse where
  nfts : List NFTResponse
  total_count : Nat

/-- Result of one create request: HTTP status, optional body, and the trace
of filesystem / storage operations performed before returning. -/
structure CreateOut where
  status : Nat
  response : Option NFTResponse
  trace : List FsOp

/-- The uploaded file of a multipart request: its client-supplied file name,
its bytes (opaque), and its `content_type` (which starlette may report as
`None`, hence a JSON value). -/
structure FileInput where
  filename : String
  content : String
  contentType : Json

/-- The `attributes` form field together with its `json.loads` verdict:
the empty string (falsy, so the source skips parsing), a non-empty string
that fails to parse, or a non-empty string parsing to a JSON value. -/
inductive AttrField : Type where
  | empty : AttrField
  | invalid : String → AttrField
  | parsed : Json → AttrField

/-- A create-record request: optional file, required name and description,
optional attributes string. -/
structure Request where
  file : Option FileInput
  name : String
  description : String
  attributes : Option AttrField

/-- The external world of one request: whether `ipfshttpclient.connect`
succeeds, the identifiers the IPFS `add` calls return (`none` models the
call raising), and the `uuid4` drawn for the record id. -/
structure Env where
  connectOk : Bool
  contentAdd : Option String
  metadataAdd : Option String
  nftId : String

/-- Value of `nft_attributes` after the attributes block of the source:
`[]` when the field is absent or falsy, the parsed value when it parses,
`none` when `json.loads` raises (the source then raises HTTPException 400,
which the blanket `except Exception` converts to 500). -/
def attrsValue : Option AttrField → Option Json
  | none => some (.arr [])
  | some .empty => some (.arr [])
  | some (.invalid _) => none
  | some (.parsed j) => some j

/-- An optional content identifier as stored in `nft_data` (`None` → null). -/
def optStr : Option String → Json
  | none => .null
  | some s => .str s

/-- Tail of the create handler, from the `metadata_json` serialization on:
write `{id}.json`, add it to IPFS, write `{id}_data.json`, build the
response.  `t` is the trace accumulated so far, `ccid` the content
identifier (if a file was uploaded), `md` the metadata dict. -/
def finishUpload (env : Env) (id : String) (ccid : Option String)
    (md : List (String × Json)) (t : List FsOp) : CreateOut :=
  match env.metadataAdd with
  | none =>
    ⟨500, none, t ++ [.write .metadataDir (id ++ ".json") (.json (.obj md)),
                      .ipfsAdd .metadataDir (id ++ ".json")]⟩
  | some mcid =>
    match NFTResponse.fromJson (.obj [("nft_id", .str id), ("content_cid", optStr ccid),
        ("metadata_cid", .str mcid), ("metadata", .obj md)]) with
    | none =>
      ⟨500, none, t ++ [.write .metadataDir (id ++ ".json") (.json (.obj md)),
                        .ipfsAdd .metadataDir (id ++ ".json"),
                        .write .metadataDir (id ++ "_data.json")
                          (.json (.obj [("nft_id", .str id), ("content_cid", optStr ccid),
                            ("metadata_cid", .str mcid), ("metadata", .obj md)]))]⟩
    | some r =>
      ⟨200, some r, t ++ [.write .metadataDir (id ++ ".json") (.json (.obj md)),
                          .ipfsAdd .metadataDir (id ++ ".json"),
                          .write .metadataDir (id ++ "_data.json")
                            (.json (.obj [("nft_id", .str id), ("content_cid", optStr ccid),
                              ("metadata_cid", .str mcid), ("metadata", .obj md)]))]⟩

/-- `POST /upload/`.  Every failure path returns 500: the handler's blanket
`except Exception` also catches the `HTTPException(400)` (bad attributes
JSON) and `HTTPException(503)` (connect failure) raised inside the `try`,
because FastAPI's `HTTPException` subclasses `Exception` and the handler has
no `except HTTPException: raise` clause. -/
def upload_to_ipfs (env : Env) (req : Request) : CreateOut :=
  match attrsValue req.attributes with
  | none => ⟨500, none, []⟩
  | some attrs =>
    if env.connectOk then
      match req.file with
      | some f =>
        match env.contentAdd with
        | none =>
          ⟨500, none, [.write .uploadsDir (env.nftId ++ "_" ++ f.filename) (.raw f.content),
                       .ipfsAdd .uploadsDir (env.nftId ++ "_" ++ f.filename)]⟩
        | some ccid =>
          finishUpload env env.nftId (some ccid)
            [("name", .str req.name), ("description", .str req.description),
             ("attributes", attrs), ("image", .str ("ipfs://" ++ ccid)),
             ("content_type", f.contentType)]
            [.write .uploadsDir (env.nftId ++ "_" ++ f.filename) (.raw f.content),
             .ipfsAdd .uploadsDir (env.nftId ++ "_" ++ f.filename),
             .remove .uploadsDir (env.nftId ++ "_" ++ f.filename)]
      | none =>
        finishUpload env env.nftId none
          [("name", .str req.name), ("description", .str req.description),
           ("attributes", attrs)] []
    else ⟨500, none, []⟩

/-- `GET /nft/{nft_id}`: 404 when `{id}_data.json` does not exist, 500 when
it exists but `json.load` or `NFTResponse(**nft_data)` raises (this handler
DOES re-raise `HTTPException`, so the 404 survives), else the record. -/
def get_nft (fs : Fs) (nft_id : String) : Except Nat NFTResponse × List FsOp :=
  match alookup fs.metadata (nft_id ++ "_data.json") with
  | none => (.error 404, [])
  | some (.raw _) => (.error 500, [.read .metadataDir (nft_id ++ "_data.json")])
  | some (.json j) =>
    match NFTResponse.fromJson j with
    | none => (.error 500, [.read .metadataDir (nft_id ++ "_data.json")])
    | some r => (.ok r, [.read .metadataDir (nft_id ++ "_data.json")])

/-- Whether a file name matches the `glob("*_data.json")` pattern. -/
def isDataFile (name : String) : Bool := "_data.json".data.isSuffixOf name.data

/-- The per-file body of the listing loop: a file that fails `json.load` or
`NFTResponse(**nft_data)` is skipped (logged and excluded). -/
def parseEntry : FileData → Option NFTResponse
  | .raw _ => none
  | .json j => NFTResponse.fromJson j

/-- Records of the store in pre-sort enumeration order: the `*_data.json`
files that parse, in directory order. -/
def parsedRecords (s : Store) : List NFTResponse :=
  (s.filter (fun e => isDataFile e.1)).filterMap (fun e => parseEntry e.2)

/-- Sort key of the listing: `x.metadata.get("name", "")`. -/
def nameKeyJ (r : NFTResponse) : Json := (alookup r.metadata "name").getD (.str "")

/-- String value of the sort key.  Python compares the raw key values and
raises `TypeError` on a string/non-string comparison (turning the whole
listing into a 500), so the sort is only faithful — and only quantified
over, in the theorems below — on stores whose records have string-valued
(or absent) `name` fields; `nameIsStr` is that side condition. -/
def nameStr (r : NFTResponse) : String :=
  match nameKeyJ r with
  | .str s => s
  | _ => ""

/-- Side condition: the record's sort key is an honest string. -/
def nameIsStr (r : NFTResponse) : Bool :=
  match nameKeyJ r with
  | .str _ => true
  | _ => false

/-- Descending-by-name order used by `nfts.sort(key=..., reverse=True)`:
`a` may precede `b` iff `b`'s name is at most `a`'s. -/
def nameGe (a b : NFTResponse) : Prop := nameStr b ≤ nameStr a

instance : DecidableRel nameGe := fun a b => by
  unfold nameGe; infer_instance

instance : IsTotal NFTResponse nameGe :=
  ⟨fun a b => le_total (nameStr b) (nameStr a)⟩

instance : IsTrans NFTResponse nameGe :=
  ⟨fun _ _ _ h1 h2 => le_trans h2 h1⟩

/-- Python's `list.sort` is stable, and with `reverse=True` equal keys keep
their original order; a stable descending sort is extensionally unique, and
`List.insertionSort nameGe` is one. -/
def sortByNameDesc (l : List NFTResponse) : List NFTResponse :=
  List.insertionSort nameGe l

/-- `GET /nfts/`: read every `*_data.json` file, skip the unparseable ones,
sort descending by metadata name, return the list with its length. -/
def list_all_nfts (fs : Fs) : NFTListResponse × List FsOp :=
  (⟨sortByNameDesc (parsedRecords fs.metadata),
    (sortByNameDesc (parsedRecords fs.metadata)).length⟩,
   (fs.metadata.filter (fun e => isDataFile e.1)).map (fun e => .read .metadataDir e.1))

/-- `GET /health`: always 200, body reports storage reachability; no file
operations. -/
def health_check (env : Env) : String × String × List FsOp :=
  ("ok", if env.connectOk then "connected" else "disconnected", [])

/-- The CID selection shared by both QR endpoints:
`content_cid = nft_data.get("content_cid")`, then
`if not content_cid: content_cid = nft_data.get("metadata_cid")` —
the fallback triggers on Python falsiness, not only on absence. -/
def chosenCid (kvs : List (String × Json)) : Json :=
  if ((alookup kvs "content_cid").getD .null).truthy
  then (alookup kvs "content_cid").getD .null
  else (alookup kvs "metadata_cid").getD .null

/-- `GET /qrcode/{nft_id}`: 404 if the record file is missing, 500 if it is
unreadable or not a dict (`.get` raises), else the `ipfs://{cid}` URI that
gets encoded into the PNG.  The PNG rasterization itself is the external QR
library and is not modelled; the result is the encoded URI. -/
def generate_qr_code (fs : Fs) (nft_id : String) : Except Nat String × List FsOp :=
  match alookup fs.metadata (nft_id ++ "_data.json") with
  | none => (.error 404, [])
  | some (.raw _) => (.error 500, [.read .metadataDir (nft_id ++ "_data.json")])
  | some (.json (.obj kvs)) =>
    (.ok ("ipfs://" ++ pystr (chosenCid kvs)), [.read .metadataDir (nft_id ++ "_data.json")])
  | some (.json _) => (.error 500, [.read .metadataDir (nft_id ++ "_data.json")])

/-- `GET /qrcode/gateway/{nft_id}?gateway=...`: same record resolution, URI
`https://{gateway}/ipfs/{cid}`. -/
def generate_gateway_qr_code (fs : Fs) (nft_id : String) (gateway : String) :
    Except Nat String × List FsOp :=
  match alookup fs.metadata (nft_id ++ "_data.json") with
  | none => (.error 404, [])
  | some (.raw _) => (.error 500, [.read .metadataDir (nft_id ++ "_data.json")])
  | some (.json (.obj kvs)) =>
    (.ok ("https://" ++ gateway ++ "/ipfs/" ++ pystr (chosenCid kvs)),
     [.read .metadataDir (nft_id ++ "_data.json")])
  | some (.json _) => (.error 500, [.read .metadataDir (nft_id ++ "_data.json")])

/-! ### Concrete fixtures used by witnesses, counterexamples and evidence -/

/-- Concrete environment: IPFS reachable, both `add` calls succeed. -/
def envW : Env := ⟨true, some "QmContent", some "QmMeta", "id0"⟩

/-- Concrete environment whose connection attempt fails. -/
def envNoConn : Env := ⟨false, some "QmContent", some "QmMeta", "id0"⟩

/-- Concrete uploaded file. -/
def fileW : FileInput := ⟨"art.png", "PNGBYTES", .str "image/png"⟩

/-- Concrete create request carrying a file and no attributes field. -/
def reqFileW : Request := ⟨some fileW, "Art1", "d", none⟩

/-- Concrete create request whose attributes string is invalid JSON. -/
def reqBadAttrsW : Request := ⟨some fileW, "Art1", "d", some (.invalid "not json")⟩

/-- Concrete create request without a file. -/
def reqNoFileW : Request := ⟨none, "Art1", "d", none⟩

/-- Empty filesystem. -/
def fsEmpty : Fs := ⟨[], []⟩

/-- The record the create of `reqFileW` under `envW` returns. -/
def rW : NFTResponse :=
  ⟨"id0", "QmContent", "QmMeta",
   [("name", .str "Art1"), ("description", .str "d"), ("attributes", .arr []),
    ("image", .str "ipfs://QmContent"), ("content_type", .str "image/png")]⟩

/-- Concrete store: records named Art0 (id b), Art1 (id a), Art1 again
(id c, later in enumeration order), one unparseable data file, one
non-data file. -/
def fsListW : Fs :=
  ⟨[("b_data.json", .json (.obj [("nft_id", .str "b"), ("content_cid", .str "c1"),
      ("metadata_cid", .str "m1"), ("metadata", .obj [("name", .str "Art0")])])),
    ("bad_data.json", .raw "oops"),
    ("a_data.json", .json (.obj [("nft_id", .str "a"), ("content_cid", .str "c2"),
      ("metadata_cid", .str "m2"), ("metadata", .obj [("name", .str "Art1")])])),
    ("x.json", .json .null),
    ("c_data.json", .json (.obj [("nft_id", .str "c"), ("content_cid", .str "c3"),
      ("metadata_cid", .str "m3"), ("metadata", .obj [("name", .str "Art1")])]))],
   []⟩

/-- Concrete store whose record has a present but EMPTY `content_cid`. -/
def fsFalsy : Fs :=
  ⟨[("x_data.json", .json (.obj [("content_cid", .str ""),
      ("metadata_cid", .str "QmMeta")]))], []⟩

/-- Concrete store with a metadata-only record (`content_cid` null). -/
def fsQrW : Fs :=
  ⟨[("p_data.json", .json (.obj [("nft_id", .str "p"), ("content_cid", .null),
      ("metadata_cid", .str "QmOnly"), ("metadata", .obj [])]))], []⟩

/-! ### Store and trace lemmas -/

theorem alookup_setFile_self (s : Store) (n : String) (d : FileData) :
    alookup (setFile s n d) n = some d := by
  induction s with
  | nil => simp [setFile, alookup]
  | cons e es ih =>
    by_cases h : e.1 = n
    · simp [setFile, h, alookup]
    · simp [setFile, h, alookup, ih]

theorem applyTrace_nil (fs : Fs) : applyTrace fs [] = fs := rfl

theorem applyTrace_cons (fs : Fs) (op : FsOp) (t : List FsOp) :
    applyTrace fs (op :: t) = applyTrace (applyOp fs op) t := rfl

theorem applyOp_not_mutating (fs : Fs) (op : FsOp) (h : op.isMutating = false) :
    applyOp fs op = fs := by
  cases op <;> simp_all [FsOp.isMutating] <;> rfl

theorem applyTrace_not_mutating (fs : Fs) (t : List FsOp)
    (h : t.all (fun op => !op.isMutating) = true) : applyTrace fs t = fs := by
  induction t generalizing fs with
  | nil => rfl
  | cons op t ih =>
    simp only [List.all_cons, Bool.and_eq_true, Bool.not_eq_true'] at h
    rw [applyTrace_cons, applyOp_not_mutating _ _ h.1]
    exact ih _ (by simpa using h.2)

/-- Inversion of a create that returned a body: only the with-file,
connect-ok, both-adds-ok path does, and the body and trace are exactly
these. -/
theorem upload_response_some (env : Env) (req : Request) (r : NFTResponse)
    (h : (upload_to_ipfs env req).response = some r) :
    ∃ f ccid mcid attrs,
      req.file = some f ∧ env.connectOk = true ∧
      env.contentAdd = some ccid ∧ env.metadataAdd = some mcid ∧
      attrsValue req.attributes = some attrs ∧
      (upload_to_ipfs env req).status = 200 ∧
      r = ⟨env.nftId, ccid, mcid,
           [("name", .str req.name), ("description", .str req.description),
            ("attributes", attrs), ("image", .str ("ipfs://" ++ ccid)),
            ("content_type", f.contentType)]⟩ ∧
      (upload_to_ipfs env req).trace =
        [.write .uploadsDir (env.nftId ++ "_" ++ f.filename) (.raw f.content),
         .ipfsAdd .uploadsDir (env.nftId ++ "_" ++ f.filename),
         .remove .uploadsDir (env.nftId ++ "_" ++ f.filename),
         .write .metadataDir (env.nftId ++ ".json") (.json (.obj r.metadata)),
         .ipfsAdd .metadataDir (env.nftId ++ ".json"),
         .write .metadataDir (env.nftId ++ "_data.json")
           (.json (.obj [("nft_id", .str env.nftId), ("content_cid", .str ccid),
             ("metadata_cid", .str mcid), ("metadata", .obj r.metadata)]))] := by
  obtain ⟨ofile, name, desc, oattrs⟩ := req
  obtain ⟨co, oca, oma, id⟩ := env
  rcases oattrs with _ | af
  rotate_left
  rcases af with _ | s | j
  all_goals cases co
  all_goals rcases ofile with _ | f
  all_goals rcases oca with _ | ccid
  all_goals rcases oma with _ | mcid
  all_goals
    simp_all [upload_to_ipfs, finishUpload, attrsValue, NFTResponse.fromJson,
      alookup, optStr]
  all_goals (subst h; rfl)

/-- C2: a successful create that included a file returns a record with a
non-empty `content_cid`, metadata `image` equal to `"ipfs://" + content_cid`
and a `content_type` metadata key, and the `image`/`content_type` keys are
present together; the non-emptiness comes from the storage client returning
non-empty identifiers. -/
theorem create_with_file_links_content (env : Env) (req : Request) (r : NFTResponse)
    (hfile : req.file.isSome = true)
    (hcid : ∀ c, env.contentAdd = some c → c ≠ "")
    (h : (upload_to_ipfs env req).response = some r) :
    r.content_cid ≠ "" ∧
    alookup r.metadata "image" = some (.str ("ipfs://" ++ r.content_cid)) ∧
    (alookup r.metadata "content_type").isSome = true ∧
    ((alookup r.metadata "image").isSome = true ↔
      (alookup r.metadata "content_type").isSome = true) := by
  obtain ⟨f, ccid, mcid, attrs, hf, hco, hca, hma, ha, hst, hr, htr⟩ :=
    upload_response_some env req r h
  subst hr
  exact ⟨hcid ccid hca, by simp [alookup], by simp [alookup], by simp [alookup]⟩

/-- Witness for C2 at a concrete request. -/
theorem create_with_file_links_content_witness :
    rW.content_cid ≠ "" ∧
    alookup rW.metadata "image" = some (.str ("ipfs://" ++ rW.content_cid)) ∧
    (alookup rW.metadata "content_type").isSome = true ∧
    ((alookup rW.metadata "image").isSome = true ↔
      (alookup rW.metadata "content_type").isSome = true) :=
  create_with_file_links_content envW reqFileW rW rfl
    (fun c hc => by simp [envW] at hc; subst hc; decide) rfl

/-- C3: after a successful create, `getById` on the returned id reads back a
record deep-equal to the returned one. -/
theorem get_after_create_roundtrip (env : Env) (req : Request) (r : NFTResponse) (fs : Fs)
    (h : (upload_to_ipfs env req).response = some r) :
    (get_nft (applyTrace fs (upload_to_ipfs env req).trace) r.nft_id).1 = .ok r := by
  obtain ⟨f, ccid, mcid, attrs, hf, hco, hca, hma, ha, hst, hr, htr⟩ :=
    upload_response_some env req r h
  rw [htr]
  subst hr
  simp [applyTrace, applyOp, get_nft, alookup_setFile_self, NFTResponse.fromJson, alookup]

/-- Witness for C3 at a concrete request over the empty store. -/
theorem get_after_create_roundtrip_witness :
    (get_nft (applyTrace fsEmpty (upload_to_ipfs envW reqFileW).trace) rW.nft_id).1 = .ok rW :=
  get_after_create_roundtrip envW reqFileW rW fsEmpty rfl

/-- C1 (code bug evidence): the create endpoint maps BOTH a malformed
attributes string and a storage connect failure to 500, never to the 400 /
503 the code itself constructs: the handler's blanket `except Exception`
catches the two `HTTPException`s raised inside its `try` block and replaces
them with a 500. -/
theorem create_error_codes_all_500 :
    (upload_to_ipfs envW reqBadAttrsW).status = 500 ∧
    (upload_to_ipfs envW reqBadAttrsW).status ≠ 400 ∧
    (upload_to_ipfs envNoConn reqFileW).status = 500 ∧
    (upload_to_ipfs envNoConn reqFileW).status ≠ 503 :=
  ⟨rfl, by decide, rfl, by decide⟩

/-- C5 (code bug evidence): a create WITHOUT a file never succeeds: the
response model requires `content_cid : str`, the handler passes `None`, so
`NFTResponse(**nft_data)` raises and the endpoint answers 500 — after
having already written the `{id}_data.json` record with a null
`content_cid` to the store. -/
theorem create_without_file_always_500 :
    (upload_to_ipfs envW reqNoFileW).status = 500 ∧
    (upload_to_ipfs envW reqNoFileW).response = none ∧
    alookup (applyTrace fsEmpty (upload_to_ipfs envW reqNoFileW).trace).metadata
        "id0_data.json" =
      some (.json (.obj [("nft_id", .str "id0"), ("content_cid", .null),
        ("metadata_cid", .str "QmMeta"),
        ("metadata", .obj [("name", .str "Art1"), ("description", .str "d"),
          ("attributes", .arr [])])])) :=
  ⟨rfl, rfl, rfl⟩

/-- C8: `getById` answers 404 exactly when no `{id}_data.json` file exists,
and an existing but malformed record file yields 500, not 404. -/
theorem get_nft_not_found_iff (fs : Fs) (id : String) :
    ((get_nft fs id).1 = .error 404 ↔ alookup fs.metadata (id ++ "_data.json") = none) ∧
    (∀ b, alookup fs.metadata (id ++ "_data.json") = some (.raw b) →
      (get_nft fs id).1 = .error 500) := by
  constructor
  · unfold get_nft
    split
    · next hl => simp [hl]
    · next b hl => simp [hl]
    · next j hl => split <;> simp [hl]
  · intro b hb
    unfold get_nft
    rw [hb]

/-- Witness for C8: a missing id gives 404, an unreadable record gives 500. -/
theorem get_nft_not_found_iff_witness :
    (get_nft fsListW "zz").1 = .error 404 ∧ (get_nft fsListW "bad").1 = .error 500 :=
  ⟨(get_nft_not_found_iff fsListW "zz").1.mpr rfl,
   (get_nft_not_found_iff fsListW "bad").2 "oops" rfl⟩

/-- C10: the read-only endpoints perform no write or remove operation, and
replaying their traces over any filesystem leaves it unchanged. -/
theorem read_endpoints_frame (fs : Fs) (env : Env) (i1 i2 i3 g : String) :
    ((get_nft fs i1).2.all (fun op => !op.isMutating)) = true ∧
    applyTrace fs (get_nft fs i1).2 = fs ∧
    ((list_all_nfts fs).2.all (fun op => !op.isMutating)) = true ∧
    applyTrace fs (list_all_nfts fs).2 = fs ∧
    (health_check env).2.2 = [] ∧
    ((generate_qr_code fs i2).2.all (fun op => !op.isMutating)) = true ∧
    applyTrace fs (generate_qr_code fs i2).2 = fs ∧
    ((generate_gateway_qr_code fs i3 g).2.all (fun op => !op.isMutating)) = true ∧
    applyTrace fs (generate_gateway_qr_code fs i3 g).2 = fs := by
  have hget : ((get_nft fs i1).2.all (fun op => !op.isMutating)) = true := by
    unfold get_nft
    split
    · rfl
    · rfl
    · split <;> rfl
  have hlist : ((list_all_nfts fs).2.all (fun op => !op.isMutating)) = true := by
    unfold list_all_nfts
    refine List.all_eq_true.mpr (fun x hx => ?_)
    obtain ⟨e, he, hex⟩ := List.mem_map.mp hx
    subst hex
    rfl
  have hqr : ((generate_qr_code fs i2).2.all (fun op => !op.isMutating)) = true := by
    unfold generate_qr_code
    split <;> rfl
  have hgw : ((generate_gateway_qr_code fs i3 g).2.all (fun op => !op.isMutating)) = true := by
    unfold generate_gateway_qr_code
    split <;> rfl
  exact ⟨hget, applyTrace_not_mutating fs _ hget, hlist,
    applyTrace_not_mutating fs _ hlist, rfl, hqr,
    applyTrace_not_mutating fs _ hqr, hgw, applyTrace_not_mutating fs _ hgw⟩

/-- C6: a create whose attributes string fails `json.loads` raises before
any filesystem or storage operation: its trace is empty, the store is
unchanged, and (for a fresh id) the attempted id is retrievable neither by
`getById` nor through `listAll` afterwards. -/
theorem invalid_attrs_no_side_effects (env : Env) (req : Request) (fs : Fs) (s : String)
    (hs : req.attributes = some (.invalid s))
    (hfree : alookup fs.metadata (env.nftId ++ "_data.json") = none)
    (hfresh : (parsedRecords fs.metadata).all (fun r => !(r.nft_id == env.nftId)) = true) :
    (upload_to_ipfs env req).trace = [] ∧
    (upload_to_ipfs env req).response = none ∧
    applyTrace fs (upload_to_ipfs env req).trace = fs ∧
    (get_nft (applyTrace fs (upload_to_ipfs env req).trace) env.nftId).1 = .error 404 ∧
    ((list_all_nfts (applyTrace fs (upload_to_ipfs env req).trace)).1.nfts.all
      (fun r => !(r.nft_id == env.nftId))) = true := by
  have hup : upload_to_ipfs env req = ⟨500, none, []⟩ := by
    unfold upload_to_ipfs
    rw [hs]
    rfl
  rw [hup]
  refine ⟨rfl, rfl, rfl, ?_, ?_⟩
  · unfold get_nft
    rw [show applyTrace fs [] = fs from rfl, hfree]
  · refine List.all_eq_true.mpr (fun r hr => ?_)
    have hr2 : r ∈ parsedRecords fs.metadata :=
      ((List.perm_insertionSort nameGe (parsedRecords fs.metadata)).mem_iff).mp hr
    exact List.all_eq_true.mp hfresh r hr2

/-- Witness for C6 at a concrete bad-attributes request over a populated
store. -/
theorem invalid_attrs_no_side_effects_witness :
    (upload_to_ipfs envW reqBadAttrsW).trace = [] ∧
    (upload_to_ipfs envW reqBadAttrsW).response = none ∧
    applyTrace fsListW (upload_to_ipfs envW reqBadAttrsW).trace = fsListW ∧
    (get_nft (applyTrace fsListW (upload_to_ipfs envW reqBadAttrsW).trace) envW.nftId).1 =
      .error 404 ∧
    ((list_all_nfts (applyTrace fsListW (upload_to_ipfs envW reqBadAttrsW).trace)).1.nfts.all
      (fun r => !(r.nft_id == envW.nftId))) = true :=
  invalid_attrs_no_side_effects envW reqBadAttrsW fsListW "not json" rfl rfl (by decide)

/-- Filtering an ordered insert by a fixed name: the inserted record lands
before every other record of that name (it only passes records with
strictly greater names), which is exactly insertion-sort stability. -/
theorem filter_orderedInsert_name (x : NFTResponse) (l : List NFTResponse) (k : String) :
    (List.orderedInsert nameGe x l).filter (fun r => decide (nameStr r = k)) =
      if nameStr x = k
      then x :: l.filter (fun r => decide (nameStr r = k))
      else l.filter (fun r => decide (nameStr r = k)) := by
  induction l with
  | nil =>
    by_cases hx : nameStr x = k <;> simp [List.orderedInsert, List.filter, hx]
  | cons b t ih =>
    by_cases hle : nameGe x b
    · by_cases hx : nameStr x = k <;> by_cases hb : nameStr b = k <;>
        simp [List.orderedInsert, hle, List.filter_cons, hx, hb]
    · have hlt : nameStr x < nameStr b := not_le.mp hle
      by_cases hb : nameStr b = k
      · have hx : ¬ nameStr x = k := by
          intro hxk
          rw [hxk, hb] at hlt
          exact lt_irrefl _ hlt
        simp [List.orderedInsert, hle, List.filter_cons, hb, hx, ih]
      · by_cases hx : nameStr x = k <;>
          simp [List.orderedInsert, hle, List.filter_cons, hb, hx, ih]

/-- Stability of the listing sort, as a filter identity: restricting the
sorted sequence to any one name gives those records in their pre-sort
enumeration order. -/
theorem filter_sortByNameDesc (l : List NFTResponse) (k : String) :
    (sortByNameDesc l).filter (fun r => decide (nameStr r = k)) =
      l.filter (fun r => decide (nameStr r = k)) := by
  induction l with
  | nil => rfl
  | cons x t ih =>
    unfold sortByNameDesc at *
    simp only [List.insertionSort]
    rw [filter_orderedInsert_name]
    by_cases hx : nameStr x = k <;> simp [hx, List.filter_cons, ih]

/-- C4: the listing returns exactly the parseable records, sorted descending
by metadata name (missing name sorting as the empty string is folded into
`nameStr`), and the sort is stable: records sharing a name keep their
pre-sort enumeration order.  The hypothesis restricts to stores whose
records carry string-valued (or absent) names — on other stores Python's
mixed-type comparison raises and no listing is returned at all. -/
theorem list_sorted_desc_stable (fs : Fs)
    (hn : (parsedRecords fs.metadata).all nameIsStr = true) :
    List.Sorted nameGe (list_all_nfts fs).1.nfts ∧
    List.Perm (list_all_nfts fs).1.nfts (parsedRecords fs.metadata) ∧
    (∀ k, (list_all_nfts fs).1.nfts.filter (fun r => decide (nameStr r = k)) =
      (parsedRecords fs.metadata).filter (fun r => decide (nameStr r = k))) :=
  ⟨List.sorted_insertionSort nameGe (parsedRecords fs.metadata),
   List.perm_insertionSort nameGe (parsedRecords fs.metadata),
   fun k => filter_sortByNameDesc (parsedRecords fs.metadata) k⟩

/-- Witness for C4 on a store with a duplicated name (Art1 twice). -/
theorem list_sorted_desc_stable_witness :
    List.Sorted nameGe (list_all_nfts fsListW).1.nfts ∧
    List.Perm (list_all_nfts fsListW).1.nfts (parsedRecords fsListW.metadata) ∧
    ((list_all_nfts fsListW).1.nfts.filter (fun r => decide (nameStr r = "Art1")) =
      (parsedRecords fsListW.metadata).filter (fun r => decide (nameStr r = "Art1"))) :=
  ⟨(list_sorted_desc_stable fsListW (by decide)).1,
   (list_sorted_desc_stable fsListW (by decide)).2.1,
   (list_sorted_desc_stable fsListW (by decide)).2.2 "Art1"⟩

/-- C9: the listing's `total_count` is the length of the returned sequence,
which is the number of data files that parsed, unparseable files excluded. -/
theorem list_total_count_eq (fs : Fs)
    (hn : (parsedRecords fs.metadata).all nameIsStr = true) :
    (list_all_nfts fs).1.total_count = (list_all_nfts fs).1.nfts.length ∧
    (list_all_nfts fs).1.nfts.length = (parsedRecords fs.metadata).length :=
  ⟨rfl, List.length_insertionSort nameGe (parsedRecords fs.metadata)⟩

/-- Witness for C9: on the concrete store, two of three ids listed. -/
theorem list_total_count_eq_witness :
    (list_all_nfts fsListW).1.total_count = (list_all_nfts fsListW).1.nfts.length ∧
    (list_all_nfts fsListW).1.nfts.length = (parsedRecords fsListW.metadata).length :=
  list_total_count_eq fsListW (by decide)

/-- Resolution of the QR target CID when `content_cid` is present as a
non-empty string: it is chosen. -/
theorem chosenCid_content (kvs : List (String × Json)) (cs : String)
    (hc : alookup kvs "content_cid" = some (.str cs)) (hcs : cs ≠ "") :
    chosenCid kvs = .str cs := by
  unfold chosenCid
  rw [hc]
  simp [Json.truthy, hcs]

/-- Resolution of the QR target CID when `content_cid` is missing, null or
the empty string (all Python-falsy): the metadata CID is chosen. -/
theorem chosenCid_fallback (kvs : List (String × Json)) (ms : String)
    (hc : alookup kvs "content_cid" = none ∨ alookup kvs "content_cid" = some .null ∨
      alookup kvs "content_cid" = some (.str ""))
    (hm : alookup kvs "metadata_cid" = some (.str ms)) :
    chosenCid kvs = .str ms := by
  unfold chosenCid
  rcases hc with h | h | h <;> rw [h] <;> simp [Json.truthy, hm]

/-- C7 (counterexample to the claim as stated): a stored record with a
PRESENT but empty `content_identifier` — the claim then demands a URI built
from it, `"ipfs://"` — is answered with a URI built from the metadata
identifier instead, because the code tests Python truthiness (`if not
content_cid`), not absence. -/
theorem qr_falsy_content_counterexample :
    alookup fsFalsy.metadata "x_data.json" =
      some (.json (.obj [("content_cid", .str ""), ("metadata_cid", .str "QmMeta")])) ∧
    (generate_qr_code fsFalsy "x").1 = .ok "ipfs://QmMeta" ∧
    (generate_qr_code fsFalsy "x").1 ≠ .ok ("ipfs://" ++ "") := by
  refine ⟨rfl, rfl, ?_⟩
  intro h
  have h2 : ("ipfs://QmMeta" : String) = "ipfs://" ++ "" := Except.ok.inj h
  exact absurd h2 (by decide)

/-- C7 (amended): for a missing record both QR endpoints answer 404; for a
stored record the target URI is built from `content_cid` when that value is
a non-empty string, and from `metadata_cid` when `content_cid` is absent,
null or empty (Python-falsy); with a gateway the URI is
`https://{gateway}/ipfs/{cid}`, otherwise `ipfs://{cid}`. -/
theorem qr_target_resolution (fs : Fs) (id g : String) :
    (alookup fs.metadata (id ++ "_data.json") = none →
      (generate_qr_code fs id).1 = .error 404 ∧
      (generate_gateway_qr_code fs id g).1 = .error 404) ∧
    (∀ kvs cs, alookup fs.metadata (id ++ "_data.json") = some (.json (.obj kvs)) →
      alookup kvs "content_cid" = some (.str cs) → cs ≠ "" →
      (generate_qr_code fs id).1 = .ok ("ipfs://" ++ cs) ∧
      (generate_gateway_qr_code fs id g).1 = .ok ("https://" ++ g ++ "/ipfs/" ++ cs)) ∧
    (∀ kvs ms, alookup fs.metadata (id ++ "_data.json") = some (.json (.obj kvs)) →
      (alookup kvs "content_cid" = none ∨ alookup kvs "content_cid" = some .null ∨
        alookup kvs "content_cid" = some (.str "")) →
      alookup kvs "metadata_cid" = some (.str ms) →
      (generate_qr_code fs id).1 = .ok ("ipfs://" ++ ms) ∧
      (generate_gateway_qr_code fs id g).1 = .ok ("https://" ++ g ++ "/ipfs/" ++ ms)) := by
  refine ⟨fun h => ⟨?_, ?_⟩, fun kvs cs hl hc hcs => ⟨?_, ?_⟩, fun kvs ms hl hc hm => ⟨?_, ?_⟩⟩
  · unfold generate_qr_code
    rw [h]
  · unfold generate_gateway_qr_code
    rw [h]
  · unfold generate_qr_code
    rw [hl]
    show Except.ok ("ipfs://" ++ pystr (chosenCid kvs)) = Except.ok ("ipfs://" ++ cs)
    rw [chosenCid_content kvs cs hc hcs]
    rfl
  · unfold generate_gateway_qr_code
    rw [hl]
    show Except.ok ("https://" ++ g ++ "/ipfs/" ++ pystr (chosenCid kvs)) =
      Except.ok ("https://" ++ g ++ "/ipfs/" ++ cs)
    rw [chosenCid_content kvs cs hc hcs]
    rfl
  · unfold generate_qr_code
    rw [hl]
    show Except.ok ("ipfs://" ++ pystr (chosenCid kvs)) = Except.ok ("ipfs://" ++ ms)
    rw [chosenCid_fallback kvs ms hc hm]
    rfl
  · unfold generate_gateway_qr_code
    rw [hl]
    show Except.ok ("https://" ++ g ++ "/ipfs/" ++ pystr (chosenCid kvs)) =
      Except.ok ("https://" ++ g ++ "/ipfs/" ++ ms)
    rw [chosenCid_fallback kvs ms hc hm]
    rfl

/-- Witness for amended C7: 404 on a missing id; content CID chosen when
present and non-empty; metadata CID chosen for a metadata-only record, on
both the plain and the gateway endpoint. -/
theorem qr_target_resolution_witness :
    (generate_qr_code fsQrW "missing").1 = .error 404 ∧
    (generate_qr_code fsListW "b").1 = .ok "ipfs://c1" ∧
    (generate_gateway_qr_code fsListW "b" "ipfs.io").1 = .ok "https://ipfs.io/ipfs/c1" ∧
    (generate_qr_code fsQrW "p").1 = .ok "ipfs://QmOnly" ∧
    (generate_gateway_qr_code fsQrW "p" "ipfs.io").1 = .ok "https://ipfs.io/ipfs/QmOnly" :=
  ⟨((qr_target_resolution fsQrW "missing" "ipfs.io").1 rfl).1,
   ((qr_target_resolution fsListW "b" "ipfs.io").2.1
      [("nft_id", .str "b"), ("content_cid", .str "c1"), ("metadata_cid", .str "m1"),
       ("metadata", .obj [("name", .str "Art0")])] "c1" rfl rfl (by decide)).1,
   ((qr_target_resolution fsListW "b" "ipfs.io").2.1
      [("nft_id", .str "b"), ("content_cid", .str "c1"), ("metadata_cid", .str "m1"),
       ("metadata", .obj [("name", .str "Art0")])] "c1" rfl rfl (by decide)).2,
   ((qr_target_resolution fsQrW "p" "ipfs.io").2.2
      [("nft_id", .str "p"), ("content_cid", .null), ("metadata_cid", .str "QmOnly"),
       ("metadata", .obj [])] "QmOnly" rfl (Or.inr (Or.inl rfl)) rfl).1,
   ((qr_target_resolution fsQrW "p" "ipfs.io").2.2
      [("nft_id", .str "p"), ("content_cid", .null), ("metadata_cid", .str "QmOnly"),
       ("metadata", .obj [])] "QmOnly" rfl (Or.inr (Or.inl rfl)) rfl).2⟩
